import Mathlib

/-!
Shallow embedding of the upload-intake service (final variant of
`src/server.js`, the one with the Brevo-primary / SMTP-secondary email
transport and upsert-by-email reconciliation).

External collaborators (object storage, the tabular backend, the
outbound email transports) are modelled as explicit state and oracle
parameters; the business logic of the route handler and its helpers is
translated function by function from the source.  The JS string
primitives used by that logic (`trim`, `toLowerCase` / Airtable
`LOWER`, `split(',')`, substring `FIND`) are modelled as structurally
recursive operations on the character list, so that all definitions
evaluate inside the kernel.
-/

namespace Underwriters

/-- JS `String.prototype.trim` (and `.toString().trim()` on field
values): strip leading and trailing whitespace. -/
def jsTrim (s : String) : String :=
  ⟨((s.data.dropWhile Char.isWhitespace).reverse.dropWhile Char.isWhitespace).reverse⟩

/-- The case folding shared by JS `toLowerCase` and the Airtable
`LOWER` formula function, as used for the case-insensitive matches. -/
def lowerStr (s : String) : String := ⟨s.data.map Char.toLower⟩

/-- JS `s.split(',')` on the character list: the empty string splits to
`[""]`, every comma starts a new chunk. -/
def splitCommaAux : List Char → List Char → List String
  | [], acc => [⟨acc.reverse⟩]
  | c :: cs, acc =>
    if c = ',' then ⟨acc.reverse⟩ :: splitCommaAux cs [] else splitCommaAux cs (c :: acc)

/-- JS `s.split(',')`. -/
def splitComma (s : String) : List String := splitCommaAux s.data []

/-- Does `pat` occur at the head of `hay`? (helper for the Airtable
`FIND` formula function). -/
def listStarts : List Char → List Char → Bool
  | [], _ => true
  | _ :: _, [] => false
  | p :: ps, h :: hs => p == h && listStarts ps hs

/-- Does `pat` occur contiguously anywhere in `hay`? -/
def listOccurs (pat : List Char) : List Char → Bool
  | [] => listStarts pat []
  | h :: hs => listStarts pat (h :: hs) || listOccurs pat hs

/-- Airtable `FIND(pat, hay) > 0`: `pat` occurs as a contiguous
substring of `hay` (the ids tested by the code are never empty). -/
def strFindPos (pat hay : String) : Bool := listOccurs pat.data hay.data

example : jsTrim " Marine " = "Marine" := by decide
example : lowerStr "A@X.Com" = "a@x.com" := by decide
example : splitComma "u2@ins.com,u3@ins.com" = ["u2@ins.com", "u3@ins.com"] := by decide
example : splitComma "" = [""] := by decide
example : strFindPos "rec1" "recA,rec1,recB" = true := by decide
example : strFindPos "rec1" "recA" = false := by decide

/-- One `{url, filename}` entry of the attachments field
(`Uploaded File` in the source). -/
structure Attachment where
  url : String
  filename : String
deriving DecidableEq

/-- A row of the submissions table (`AIRTABLE_APPS_TABLE`).
`email`, `classLink`, `notes`, `files` embed the fields addressed via
`EMAIL_F`, `CLASS_F`, `NOTES_F`, `FILE_F`; absent text fields are
modelled by the empty string (the code treats both through the same JS
truthiness tests), and the linked-class field by a list of record ids. -/
structure StoredRecord where
  id : String
  email : String
  classLink : List String
  notes : String
  files : List Attachment
deriving DecidableEq

/-- A row of the classes table (`CLASS_TABLE_ID`): store-assigned id
plus the `Name` field. -/
structure Category where
  id : String
  name : String
deriving DecidableEq

/-- The record store visible to the handler: the submissions table and
the classes table. -/
structure Store where
  apps : List StoredRecord
  classes : List Category
deriving DecidableEq

/-- A row of the applicant directory (`AIRTABLE_APPLICANTS_TABLE_ID`):
the `APPLICANTS_EMAIL_FIELD` and `APPLICANTS_CLASS_FIELD` columns. -/
structure ApplicantEntry where
  email : String
  classOfBusiness : String
deriving DecidableEq

/-- The classification resolution of the route handler:
`let effectiveClass = (classOfBusiness || '').trim(); if
(!effectiveClass && AIRTABLE_APPLICANTS_TABLE_ID) {...}`.
`applicantsDir = none` models an unset `AIRTABLE_APPLICANTS_TABLE_ID`.
The Airtable formula `LOWER({email}) = LOWER("...")` with
`maxRecords: 1` is the case-insensitive `find?`; `if (v)
effectiveClass = v.toString().trim()` keeps the empty string when the
directory entry's class field is absent or empty. -/
def resolveEffectiveClass (classOfBusiness submitterEmail : String)
    (applicantsDir : Option (List ApplicantEntry)) : String :=
  let ec := jsTrim classOfBusiness
  if ec ≠ "" then ec
  else
    match applicantsDir with
    | none => ""
    | some dir =>
      match dir.find? (fun a => lowerStr a.email == lowerStr submitterEmail) with
      | none => ""
      | some a => if a.classOfBusiness ≠ "" then jsTrim a.classOfBusiness else ""

/-- `findSubmissionByEmail(tableId, emailField, email)`: `airtableFindOne`
with the formula `LOWER({emailField}) = LOWER("email")`. -/
def findSubmissionByEmail (apps : List StoredRecord) (email : String) :
    Option StoredRecord :=
  apps.find? (fun r => lowerStr r.email == lowerStr email)

/-- The test `/^rec[0-9A-Za-z]{14}$/.test(effectiveClass)`: the literal
characters `rec` followed by exactly 14 ASCII alphanumerics. -/
def isStoreRecordId (s : String) : Bool :=
  s.data.take 3 == ['r', 'e', 'c']
    && (s.data.drop 3).length == 14
    && (s.data.drop 3).all Char.isAlphanum

example : isStoreRecordId "recAAAAAAAAAAAA07" = true := by decide
example : isStoreRecordId "Marine" = false := by decide
example : isStoreRecordId "recAAAAAAAAAAAA0" = false := by decide
example : isStoreRecordId "recAAAAAAAAAAAA073" = false := by decide
example : isStoreRecordId "recAAAAAAAAAA-A07" = false := by decide

/-- `getOrCreateClassIdByName(name)`: `null` for a falsy name;
otherwise `airtableFindOne(CLASS_TABLE_ID, LOWER({Name}) =
LOWER("name"))`, returning the existing row's id, or creating a row
`{Name: name}` (its fresh store-assigned id is the `freshId`
parameter).  The third component counts the creates issued against the
classes table (0 or 1). -/
def getOrCreateClassIdByName (classes : List Category) (freshId name : String) :
    Option String × List Category × Nat :=
  if name = "" then (none, classes, 0)
  else
    match classes.find? (fun c => lowerStr c.name == lowerStr name) with
    | some existing => (some existing.id, classes, 0)
    | none => (some freshId, classes ++ [⟨freshId, name⟩], 1)

/-- Result of the linked-class resolution block of the handler
(`let classLink=[], classRecordId=null, classDisplayName=...`). -/
structure ClassResolution where
  classLink : List String
  classRecordId : Option String
  classDisplayName : String
  classes : List Category
  classWrites : Nat
deriving DecidableEq

/-- The `// resolve linked class` block: a class text that already
matches the store-id shape is used as a direct reference, any other
non-empty text goes through `getOrCreateClassIdByName`; when an id was
obtained, `classLink = [classRecordId]` and the display name is
refreshed from the class row's `Name` when that fetch succeeds and the
name is non-empty (the fetch failure of a dangling direct reference is
caught and ignored, leaving the display name as the trimmed text). -/
def resolveClassLink (classes : List Category) (freshId effectiveClass : String) :
    ClassResolution :=
  let display := jsTrim effectiveClass
  if effectiveClass ≠ "" then
    let (rid, classes2, w) :=
      if isStoreRecordId effectiveClass then (some effectiveClass, classes, 0)
      else getOrCreateClassIdByName classes freshId effectiveClass
    match rid with
    | some cid =>
      let display2 :=
        match classes2.find? (fun c => c.id == cid) with
        | some c => if c.name ≠ "" then c.name else display
        | none => display
      ⟨[cid], some cid, display2, classes2, w⟩
    | none => ⟨[], none, display, classes2, w⟩
  else ⟨[], none, display, classes, 0⟩

example :
    resolveClassLink [] "cls1" "Marine" =
      ⟨["cls1"], some "cls1", "Marine", [⟨"cls1", "Marine"⟩], 1⟩ := by decide

example :
    resolveClassLink [⟨"cls9", "marine"⟩] "cls1" "Marine" =
      ⟨["cls9"], some "cls9", "marine", [⟨"cls9", "marine"⟩], 0⟩ := by decide

example :
    resolveClassLink [] "cls1" "" = ⟨[], none, "", [], 0⟩ := by decide

/-- Result of the `// UPSERT by email` block. -/
structure UpsertResult where
  apps : List StoredRecord
  wasCreated : Bool
  appWrites : Nat
deriving DecidableEq

/-- The `// UPSERT by email` block of the handler.  When
`findSubmissionByEmail` finds a row: `newFiles = [...existingFiles,
{url, filename}]`, `mergedNotes = (existingNotes && moreInfo) ?
existingNotes + "\n" + moreInfo : (moreInfo || existingNotes || '')`,
and `updateFields` always carries the submitter email, the merged
notes and the appended files, but the class link only `if
(classLink.length)`.  Otherwise a row is created with `moreInfo || ''`
and the single new attachment.  `appWrites` counts the writes issued
against the submissions table. -/
def upsertSubmission (apps : List StoredRecord) (freshRecId submitterEmail : String)
    (moreInfo : String) (classLink : List String) (artifact : Attachment) :
    UpsertResult :=
  match findSubmissionByEmail apps submitterEmail with
  | some existing =>
    let newFiles := existing.files ++ [artifact]
    let existingNotes := existing.notes
    let mergedNotes :=
      if existingNotes ≠ "" ∧ moreInfo ≠ "" then existingNotes ++ "\n" ++ moreInfo
      else if moreInfo ≠ "" then moreInfo
      else if existingNotes ≠ "" then existingNotes
      else ""
    let updated : StoredRecord :=
      { existing with
        email := submitterEmail
        notes := mergedNotes
        files := newFiles
        classLink := if classLink.length ≠ 0 then classLink else existing.classLink }
    ⟨apps.map (fun r => if r.id == existing.id then updated else r), false, 1⟩
  | none =>
    ⟨apps ++ [⟨freshRecId, submitterEmail, classLink, moreInfo, [artifact]⟩], true, 1⟩

/-- Result of one invocation of the submission reconciler
(classification-reference resolution followed by the upsert). -/
structure ReconcileResult where
  store : Store
  wasCreated : Bool
  classWrites : Nat
  appWrites : Nat
deriving DecidableEq

/-- The submission reconciler: the `// resolve linked class` block
followed by the `// UPSERT by email` block, threading the store and
counting the writes issued against each table. -/
def reconcile (store : Store) (freshClassId freshRecId : String)
    (submitterEmail moreInfo effectiveClass : String) (artifact : Attachment) :
    ReconcileResult :=
  let cr := resolveClassLink store.classes freshClassId effectiveClass
  let ur := upsertSubmission store.apps freshRecId submitterEmail moreInfo
    cr.classLink artifact
  ⟨⟨ur.apps, cr.classes⟩, ur.wasCreated, cr.classWrites, ur.appWrites⟩

/-- The value of the underwriter email field (`UW_EMAIL_FIELD`), which
the code probes with `Array.isArray(v) ? v : v.toString().split(',')`
after the falsy test `if (!v) return []`. -/
inductive FieldVal
  | absent
  | strVal (s : String)
  | listVal (xs : List String)
deriving DecidableEq

/-- A row of the underwriter directory
(`AIRTABLE_UNDERWRITERS_TABLE_ID`).  `classValue` is the display text
of the `UW_CLASS_FIELD` column, which the two query formulas probe as
`ARRAYJOIN({class})` (substring `FIND` of the class record id) and as
`{class} = "display name"` (exact text equality). -/
structure UWEntry where
  classValue : String
  emailVal : FieldVal
deriving DecidableEq

/-- `const v=r.get(UW_EMAIL_FIELD); if(!v)return[];
return Array.isArray(v)?v:v.toString().split(',')` — an absent or
empty-string field contributes nothing, a multi-value field its
members, a string field its comma-separated pieces. -/
def fieldEmails : FieldVal → List String
  | .absent => []
  | .listVal xs => xs
  | .strVal s => if s = "" then [] else splitComma s

/-- Insertion pass of `[...new Set(xs)]`: keep an element only when it
has not been seen yet. -/
def dedupFirstAux : List String → List String → List String
  | [], _ => []
  | x :: xs, seen =>
    if seen.contains x then dedupFirstAux xs seen
    else x :: dedupFirstAux xs (x :: seen)

/-- `[...new Set(xs)]`: deduplication keeping the first occurrence of
each element, in order. -/
def dedupFirst (xs : List String) : List String := dedupFirstAux xs []

example : dedupFirst ["b", "a", "b", "c", "a"] = ["b", "a", "c"] := by decide

/-- The `// underwriter match` block: guarded by
`(classRecordId||classDisplayName) && AIRTABLE_UNDERWRITERS_TABLE_ID`;
first the structural query `FIND("classRecordId",
ARRAYJOIN({class}))>0`, then — only when that matched nothing and a
display name exists — the text query `{class}="classDisplayName"`;
the matched rows' emails are flattened, trimmed, cleaned of empties
and deduplicated in first-occurrence order. -/
def matchedRecipients (uwConfigured : Bool) (uwDir : List UWEntry)
    (classRecordId : Option String) (classDisplayName : String) : List String :=
  if (classRecordId.isSome || classDisplayName ≠ "") && uwConfigured then
    let tier1 :=
      match classRecordId with
      | some cid => uwDir.filter (fun r => strFindPos cid r.classValue)
      | none => []
    let uwRecs :=
      if tier1.isEmpty && classDisplayName ≠ "" then
        uwDir.filter (fun r => r.classValue == classDisplayName)
      else tier1
    dedupFirst ((((uwRecs.map (fun r => fieldEmails r.emailVal)).flatten).map
      jsTrim).filter (fun s => s ≠ ""))
  else []

example :
    matchedRecipients true
      [⟨"Fire", .strVal "u1@ins.com, u2@ins.com,u3@ins.com,u1@ins.com"⟩]
      none "Fire" = ["u1@ins.com", "u2@ins.com", "u3@ins.com"] := by decide

example :
    matchedRecipients true
      [⟨"Fire", .listVal ["u1@ins.com", "u2@ins.com,u3@ins.com"]⟩]
      none "Fire" = ["u1@ins.com", "u2@ins.com,u3@ins.com"] := by decide

/-- `const notifyList = OVERRIDE_NOTIFICATION_EMAIL ?
[OVERRIDE_NOTIFICATION_EMAIL] : matchedRecipients` (an unset env var
and the empty string are both falsy). -/
def notifyListOf (overrideEmail : String) (matched : List String) : List String :=
  if overrideEmail ≠ "" then [overrideEmail] else matched

/-- Settled outcome of an external send: resolved, or rejected with an
error message. -/
inductive SendResult
  | ok
  | error (msg : String)
deriving DecidableEq

/-- Outcome and attempt counts of one `sendEmails` invocation.
`brevoAttempts` counts the requests made against the Brevo HTTP API,
`smtpAttempts` the SMTP batches handed to the nodemailer transporter
(each batch is the single `Promise.all` over the recipient list). -/
structure SendTrace where
  result : SendResult
  brevoAttempts : Nat
  smtpAttempts : Nat
deriving DecidableEq

/-- The module-level `const transporter = (!BREVO_API_KEY) ?
nodemailer.createTransport({...auth:{user:SMTP_USER,pass:SMTP_PASS}...})
: null`: the SMTP transporter object exists only when no Brevo API key
is configured, whatever SMTP credentials the environment holds. -/
def transporterOf (brevoApiKey : String) : Option Unit :=
  if brevoApiKey ≠ "" then none else some ()

/-- `sendEmails(list, subject, html)`.  The network is external, so the
outcome each transport would produce is an oracle parameter:
`brevoOutcome` is `sendEmailBrevo`'s result (`.error` covers both a
non-ok response and a thrown transport error), `smtpOutcome` the
settled result of the `Promise.all` over `transporter.sendMail`.
With a truthy `BREVO_API_KEY` the Brevo call is tried first; on its
failure the SMTP batch runs `if (transporter)`, otherwise the caught
original error is re-thrown (`throw err`).  Without an API key only
the SMTP batch runs.  The `transporter` the function reads is the
module-level const `transporterOf brevoApiKey`, so the
`if (transporter)` branch is reachable only when the key is unset —
on the Brevo path it is dead code, mirrored here as in the source. -/
def sendEmails (brevoApiKey : String)
    (brevoOutcome smtpOutcome : SendResult) : SendTrace :=
  if brevoApiKey ≠ "" then
    match brevoOutcome with
    | .ok => ⟨.ok, 1, 0⟩
    | .error e =>
      match transporterOf brevoApiKey with
      | some _ => ⟨smtpOutcome, 1, 1⟩
      | none => ⟨.error e, 1, 0⟩
  else ⟨smtpOutcome, 0, 1⟩

/-- Configuration and external directory state read by the handler. -/
structure Env where
  applicantsDir : Option (List ApplicantEntry)
  uwConfigured : Bool
  uwDir : List UWEntry
  overrideEmail : String
  brevoApiKey : String

/-- The uploaded file's metadata as seen by the handler (`req.file`). -/
structure FileUpload where
  originalname : String
deriving DecidableEq

/-- The request body fields; absent text fields are the empty string
(same truthiness as `undefined` in every test the code performs). -/
structure UploadRequest where
  classOfBusiness : String
  moreInfo : String
  submitterEmail : String
  file : Option FileUpload

/-- Oracles for the external effects of one request: whether the
object-storage put succeeds, the public URL it returns, the fresh
store-assigned ids a create would use, whether the submissions-table
write succeeds, and the outcome `sendEmails` would settle with. -/
structure Oracles where
  s3ok : Bool
  storageUrl : String
  freshClassId : String
  freshRecId : String
  recordWriteOk : Bool
  notifyOutcome : SendResult

/-- An HTTP response: `res.status(code).send(body)`. -/
structure HttpResponse where
  status : Nat
  body : String
deriving DecidableEq

/-- The `app.post('/upload')` handler: validation, classification
resolution, storage upload, linked-class resolution, the upsert, the
underwriter match, and the response.  A failing external write throws
into the outer `catch` (500 `Server error`).  The notification send is
wrapped in its own `try { if (notifyList.length) await sendEmails(...) }
catch (e) { console.error(...) }`, so `ox.notifyOutcome` is settled and
discarded: the response depends only on whether an existing record was
found. -/
def uploadHandler (env : Env) (store : Store) (req : UploadRequest)
    (ox : Oracles) : HttpResponse × Store :=
  if req.submitterEmail = "" then (⟨400, "Missing submitter email"⟩, store)
  else
    match req.file with
    | none => (⟨400, "No file uploaded"⟩, store)
    | some file =>
      let effectiveClass :=
        resolveEffectiveClass req.classOfBusiness req.submitterEmail env.applicantsDir
      if ox.s3ok = false then (⟨500, "Server error"⟩, store)
      else
        let cr := resolveClassLink store.classes ox.freshClassId effectiveClass
        let existing := findSubmissionByEmail store.apps req.submitterEmail
        let ur := upsertSubmission store.apps ox.freshRecId req.submitterEmail
          req.moreInfo cr.classLink ⟨ox.storageUrl, file.originalname⟩
        if ox.recordWriteOk = false then (⟨500, "Server error"⟩, ⟨store.apps, cr.classes⟩)
        else
          let matched := matchedRecipients env.uwConfigured env.uwDir
            cr.classRecordId cr.classDisplayName
          let _notifyList := notifyListOf env.overrideEmail matched
          (⟨200, if existing.isSome then "Existing record updated and notifications sent."
                 else "New record created and notifications sent."⟩,
           ⟨ur.apps, cr.classes⟩)

/-! ## Claims -/

/-- Claim C1, counterexample: with an API key configured (`"key"`) and
the primary Brevo request failing, the SMTP batch is attempted zero
times — not exactly once — because the module-level transporter is
`null` whenever a key is set; the primary failure is what surfaces.
An SMTP batch outcome of `.ok` is on offer and still never used. -/
theorem sendEmails_fallback_unreachable_cex :
    (sendEmails "key" (.error "boom") .ok).smtpAttempts = 0 ∧
    ¬ (sendEmails "key" (.error "boom") .ok).smtpAttempts = 1 ∧
    (sendEmails "key" (.error "boom") .ok).result = .error "boom" ∧
    transporterOf "key" = none := by decide

/-- Claim C1, amended: whenever the primary HTTP email API path is
taken (an API key is configured) and the primary request fails, the
secondary SMTP path is never attempted — the transporter is only
constructed when no API key is configured, so the `if (transporter)`
fallback branch is unreachable on this path — and the original primary
failure is always the one surfaced to the caller, whatever SMTP
credentials the environment holds. -/
theorem sendEmails_primary_failure_never_falls_back
    (k : String) (so : SendResult) (e : String) (hk : k ≠ "") :
    (sendEmails k (.error e) so).smtpAttempts = 0 ∧
    (sendEmails k (.error e) so).result = .error e := by
  simp [sendEmails, transporterOf, hk]

theorem sendEmails_primary_failure_never_falls_back_witness :
    ("key" : String) ≠ "" ∧
    (sendEmails "key" (.error "boom") .ok).smtpAttempts = 0 ∧
    (sendEmails "key" (.error "boom") .ok).result = .error "boom" :=
  ⟨by decide,
   sendEmails_primary_failure_never_falls_back "key" .ok "boom" (by decide)⟩

/-- Claim C8: with an operator override notification address
configured, recipient resolution yields exactly the one-element list
containing the override, regardless of the underwriter directory
contents and of any matches computed from it. -/
theorem override_replaces_recipients (ov : String) (hov : ov ≠ "")
    (uwCfg : Bool) (uwDir : List UWEntry) (crid : Option String)
    (disp : String) :
    notifyListOf ov (matchedRecipients uwCfg uwDir crid disp) = [ov] := by
  simp [notifyListOf, hov]

theorem override_replaces_recipients_witness :
    ("t@ops.com" : String) ≠ "" ∧
    notifyListOf "t@ops.com"
      (matchedRecipients true [⟨"Fire", .strVal "u1@ins.com"⟩] none "Fire")
      = ["t@ops.com"] :=
  ⟨by decide,
   override_replaces_recipients "t@ops.com" (by decide) true
     [⟨"Fire", .strVal "u1@ins.com"⟩] none "Fire"⟩

/-- Claim C5, counterexample: a merge triggered by a case-insensitively
matching but differently cased submitter identity rewrites the stored
identity (the update always carries `[EMAIL_F]: submitterEmail`): the
record created for `A@x.com` holds `a@x.com` after the merge. -/
theorem merge_rewrites_identity_case_cex :
    ((upsertSubmission [] "r1" "A@x.com" "" [] ⟨"u1", "f1"⟩).apps.map
        StoredRecord.email) = ["A@x.com"] ∧
    ((upsertSubmission
        (upsertSubmission [] "r1" "A@x.com" "" [] ⟨"u1", "f1"⟩).apps
        "r2" "a@x.com" "" [] ⟨"u2", "f2"⟩).apps.map StoredRecord.email)
      = ["a@x.com"] ∧
    ("a@x.com" : String) ≠ "A@x.com" := by decide

/-- Claim C5, amended: after creation the record's store id and its
case-folded identity never change on a merge; the raw identity string
is rewritten to the (case-insensitively equal) incoming submitter
identity. -/
theorem merge_preserves_case_folded_identity (r : StoredRecord)
    (email mi fresh : String) (link : List String) (a : Attachment)
    (he : lowerStr r.email = lowerStr email) :
    ((upsertSubmission [r] fresh email mi link a).apps.map
        (fun x => (x.id, lowerStr x.email))) = [(r.id, lowerStr r.email)] := by
  simp [upsertSubmission, findSubmissionByEmail, List.find?, ← he]

theorem merge_preserves_case_folded_identity_witness :
    lowerStr "A@x.com" = lowerStr "a@x.com" ∧
    ((upsertSubmission [⟨"r1", "A@x.com", [], "", []⟩] "r2" "a@x.com" ""
        [] ⟨"u2", "f2"⟩).apps.map (fun x => (x.id, lowerStr x.email)))
      = [("r1", lowerStr "A@x.com")] :=
  ⟨by decide,
   merge_preserves_case_folded_identity ⟨"r1", "A@x.com", [], "", []⟩
     "a@x.com" "" "r2" [] ⟨"u2", "f2"⟩ (by decide)⟩

/-- Claim C6, counterexample: an explicit classification that is
non-empty after trimming is returned trimmed, not unchanged:
`" Marine"` resolves to `"Marine"`. -/
theorem resolve_explicit_returned_trimmed_cex :
    jsTrim " Marine" ≠ "" ∧
    resolveEffectiveClass " Marine" "a@x.com" (some []) = "Marine" ∧
    (" Marine" : String) ≠ "Marine" := by decide

/-- Claim C6, amended: an explicit classification that is non-empty
after trimming resolves to that string trimmed (so unchanged exactly
when it carries no surrounding whitespace), regardless of the
applicant directory; with no usable explicit classification the
directory is queried by identity with case-insensitive exact match,
the matched entry's classification is returned trimmed when present,
and with no matching entry the result is the empty string, never an
error. -/
theorem resolve_effective_class_spec (c idy : String)
    (dir : List ApplicantEntry) :
    ((jsTrim c ≠ "" → ∀ d, resolveEffectiveClass c idy d = jsTrim c) ∧
     (jsTrim c = "" →
       ((∀ a ∈ dir, lowerStr a.email ≠ lowerStr idy) →
           resolveEffectiveClass c idy (some dir) = "") ∧
       (∀ a, dir.find? (fun x => lowerStr x.email == lowerStr idy) = some a →
           a.classOfBusiness ≠ "" →
           resolveEffectiveClass c idy (some dir) = jsTrim a.classOfBusiness))) := by
  constructor
  · intro hc d
    simp [resolveEffectiveClass, hc]
  · intro hc
    constructor
    · intro hnone
      have hfind : dir.find? (fun x => lowerStr x.email == lowerStr idy) = none := by
        rw [List.find?_eq_none]
        intro a ha
        simpa using hnone a ha
      simp [resolveEffectiveClass, hc, hfind]
    · intro a hfind hcls
      simp [resolveEffectiveClass, hc, hfind, hcls]

theorem resolve_effective_class_spec_witness :
    (jsTrim " Marine" ≠ "" ∧
      resolveEffectiveClass " Marine" "i@x.com" (some [⟨"i@x.com", "Fire"⟩])
        = jsTrim " Marine") ∧
    (jsTrim "" = "" ∧
      resolveEffectiveClass "" "i@x.com" (some []) = "") :=
  ⟨⟨by decide,
    (resolve_effective_class_spec " Marine" "i@x.com" [⟨"i@x.com", "Fire"⟩]).1
      (by decide) (some [⟨"i@x.com", "Fire"⟩])⟩,
   ⟨by decide,
    ((resolve_effective_class_spec "" "i@x.com" []).2 (by decide)).1
      (by intro a ha; simp at ha)⟩⟩

/-- Claim C9, counterexample: a submission whose classification is a
fresh category name issues two record-store writes in one reconciler
invocation — the category create and the submission create — not
exactly one. -/
theorem reconcile_two_writes_cex :
    ((reconcile ⟨[], []⟩ "cls1" "rec1" "a@x.com" "" "Marine" ⟨"u", "f.pdf"⟩).classWrites +
      (reconcile ⟨[], []⟩ "cls1" "rec1" "a@x.com" "" "Marine" ⟨"u", "f.pdf"⟩).appWrites = 2) ∧
    ¬ ((reconcile ⟨[], []⟩ "cls1" "rec1" "a@x.com" "" "Marine" ⟨"u", "f.pdf"⟩).classWrites +
      (reconcile ⟨[], []⟩ "cls1" "rec1" "a@x.com" "" "Marine" ⟨"u", "f.pdf"⟩).appWrites = 1) := by
  decide

/-- Claim C9, amended: every reconciler invocation issues exactly one
write against the submissions table (a create or an update), plus at
most one category create while resolving the classification
reference. -/
theorem reconcile_write_counts (store : Store) (fc fr e mi ec : String)
    (a : Attachment) :
    (reconcile store fc fr e mi ec a).appWrites = 1 ∧
    (reconcile store fc fr e mi ec a).classWrites ≤ 1 := by
  constructor
  · unfold reconcile upsertSubmission
    cases findSubmissionByEmail store.apps e <;> simp
  · unfold reconcile resolveClassLink getOrCreateClassIdByName
    by_cases hec : ec = "" <;> simp [hec]
    by_cases hrec : isStoreRecordId ec = true <;> simp [hrec]
    cases store.classes.find? (fun c => lowerStr c.name == lowerStr ec) <;> simp

/-- Claim C2: merging into an existing record overwrites the stored
classification link only when a non-empty one was resolved this time;
a reconciliation whose resolved classification is empty (so
`resolveClassLink` yields the empty link), following one that stored a
non-empty link `l`, leaves the stored classification link equal to
`l`. -/
theorem merge_empty_resolution_keeps_class_link
    (e1 e2 mi1 mi2 id1 id2 fresh : String) (cs : List Category)
    (l : List String) (a1 a2 : Attachment)
    (hl : l ≠ []) (he : lowerStr e2 = lowerStr e1) :
    ((upsertSubmission
        (upsertSubmission [] id1 e1 mi1 l a1).apps
        id2 e2 mi2 (resolveClassLink cs fresh "").classLink a2).apps.map
      StoredRecord.classLink) = [l] := by
  have hres : (resolveClassLink cs fresh "").classLink = [] := by
    simp [resolveClassLink]
  rw [hres]
  simp [upsertSubmission, findSubmissionByEmail, List.find?, he, hl]

theorem merge_empty_resolution_keeps_class_link_witness :
    (["cls9"] : List String) ≠ [] ∧
    lowerStr "A@x.com" = lowerStr "a@x.com" ∧
    ((upsertSubmission
        (upsertSubmission [] "r1" "a@x.com" "n1" ["cls9"] ⟨"u1", "f1"⟩).apps
        "r2" "A@x.com" "n2" (resolveClassLink [] "c0" "").classLink
        ⟨"u2", "f2"⟩).apps.map StoredRecord.classLink) = [["cls9"]] :=
  ⟨by decide, by decide,
   merge_empty_resolution_keeps_class_link "a@x.com" "A@x.com" "n1" "n2"
     "r1" "r2" "c0" [] ["cls9"] ⟨"u1", "f1"⟩ ⟨"u2", "f2"⟩
     (by decide) (by decide)⟩

/-- Claim C3: two reconciliations with the same identity (up to case)
and different artifacts leave the record with both artifacts in
submission order — the new artifact is appended and the first is never
dropped or replaced. -/
theorem merge_appends_artifact
    (e1 e2 mi1 mi2 id1 id2 : String) (l1 l2 : List String)
    (a1 a2 : Attachment) (hne : a1 ≠ a2) (he : lowerStr e2 = lowerStr e1) :
    ((upsertSubmission
        (upsertSubmission [] id1 e1 mi1 l1 a1).apps
        id2 e2 mi2 l2 a2).apps.map StoredRecord.files) = [[a1, a2]] := by
  simp [upsertSubmission, findSubmissionByEmail, List.find?, he]

theorem merge_appends_artifact_witness :
    (Attachment.mk "u1" "report.pdf" ≠ ⟨"u2", "addendum.pdf"⟩) ∧
    lowerStr "a@x.com" = lowerStr "a@x.com" ∧
    ((upsertSubmission
        (upsertSubmission [] "r1" "a@x.com" "n1" [] ⟨"u1", "report.pdf"⟩).apps
        "r2" "a@x.com" "n2" [] ⟨"u2", "addendum.pdf"⟩).apps.map
      StoredRecord.files) = [[⟨"u1", "report.pdf"⟩, ⟨"u2", "addendum.pdf"⟩]] :=
  ⟨by decide, by decide,
   merge_appends_artifact "a@x.com" "a@x.com" "n1" "n2" "r1" "r2" [] []
     ⟨"u1", "report.pdf"⟩ ⟨"u2", "addendum.pdf"⟩ (by decide) rfl⟩

/-- Claim C4: on a merge, when both the existing notes and the new
notes are non-empty the stored notes become the existing notes, a line
break, then the new notes; when the new notes are absent the existing
notes are kept unchanged. -/
theorem merge_notes_policy (r : StoredRecord) (email mi fresh : String)
    (link : List String) (a : Attachment)
    (he : lowerStr r.email = lowerStr email) :
    ((mi ≠ "" → r.notes ≠ "" →
        ((upsertSubmission [r] fresh email mi link a).apps.map
          StoredRecord.notes) = [r.notes ++ "\n" ++ mi]) ∧
     (mi = "" →
        ((upsertSubmission [r] fresh email mi link a).apps.map
          StoredRecord.notes) = [r.notes])) := by
  constructor
  · intro hmi hnotes
    simp [upsertSubmission, findSubmissionByEmail, List.find?, ← he, hmi, hnotes]
  · intro hmi
    by_cases hnotes : r.notes = "" <;>
      simp [upsertSubmission, findSubmissionByEmail, List.find?, ← he, hmi, hnotes]

theorem merge_notes_policy_witness :
    lowerStr "a@x.com" = lowerStr "a@x.com" ∧
    (("addendum" : String) ≠ "" ∧ ("first note" : String) ≠ "" ∧
      ((upsertSubmission [⟨"r1", "a@x.com", [], "first note", []⟩] "r2"
          "a@x.com" "addendum" [] ⟨"u", "f"⟩).apps.map StoredRecord.notes)
        = ["first note" ++ "\n" ++ "addendum"]) ∧
    ((upsertSubmission [⟨"r1", "a@x.com", [], "first note", []⟩] "r2"
        "a@x.com" "" [] ⟨"u", "f"⟩).apps.map StoredRecord.notes)
      = ["first note"] :=
  ⟨rfl,
   ⟨by decide, by decide,
    (merge_notes_policy ⟨"r1", "a@x.com", [], "first note", []⟩ "a@x.com"
        "addendum" "r2" [] ⟨"u", "f"⟩ rfl).1 (by decide) (by decide)⟩,
   (merge_notes_policy ⟨"r1", "a@x.com", [], "first note", []⟩ "a@x.com"
       "" "r2" [] ⟨"u", "f"⟩ rfl).2 rfl⟩

/-- Claim C7: for non-empty classification text, a text matching the
store-id shape (the literal `rec` followed by 14 alphanumerics) is
used as a direct reference with no store change; otherwise the
category whose name matches case-insensitively supplies its id, and a
new category named by the text is created exactly when no
case-insensitive match exists. -/
theorem category_resolution_rule (cs : List Category) (fresh ec : String)
    (hec : ec ≠ "") :
    ((isStoreRecordId ec = true →
        (resolveClassLink cs fresh ec).classRecordId = some ec ∧
        (resolveClassLink cs fresh ec).classes = cs ∧
        (resolveClassLink cs fresh ec).classWrites = 0) ∧
     (isStoreRecordId ec = false →
        ((∀ c, cs.find? (fun x => lowerStr x.name == lowerStr ec) = some c →
            (resolveClassLink cs fresh ec).classRecordId = some c.id ∧
            (resolveClassLink cs fresh ec).classes = cs ∧
            (resolveClassLink cs fresh ec).classWrites = 0) ∧
         ((∀ c ∈ cs, lowerStr c.name ≠ lowerStr ec) →
            (resolveClassLink cs fresh ec).classRecordId = some fresh ∧
            (resolveClassLink cs fresh ec).classes = cs ++ [⟨fresh, ec⟩] ∧
            (resolveClassLink cs fresh ec).classWrites = 1)))) := by
  constructor
  · intro hrec
    simp [resolveClassLink, hec, hrec]
  · intro hrec
    constructor
    · intro c hfind
      simp [resolveClassLink, getOrCreateClassIdByName, hec, hrec, hfind]
    · intro hnone
      have hfind : cs.find? (fun x => lowerStr x.name == lowerStr ec) = none := by
        rw [List.find?_eq_none]
        intro c hc
        simpa using hnone c hc
      simp [resolveClassLink, getOrCreateClassIdByName, hec, hrec, hfind]

theorem category_resolution_rule_witness :
    (("recAAAAAAAAAAAA07" : String) ≠ "" ∧
      isStoreRecordId "recAAAAAAAAAAAA07" = true ∧
      (resolveClassLink [] "c1" "recAAAAAAAAAAAA07").classRecordId
        = some "recAAAAAAAAAAAA07" ∧
      (resolveClassLink [] "c1" "recAAAAAAAAAAAA07").classWrites = 0) ∧
    (("Marine" : String) ≠ "" ∧ isStoreRecordId "Marine" = false ∧
      (resolveClassLink [] "c1" "Marine").classRecordId = some "c1" ∧
      (resolveClassLink [] "c1" "Marine").classes = [⟨"c1", "Marine"⟩] ∧
      (resolveClassLink [] "c1" "Marine").classWrites = 1) :=
  ⟨⟨by decide, by decide,
    ((category_resolution_rule [] "c1" "recAAAAAAAAAAAA07" (by decide)).1
        (by decide)).1,
    ((category_resolution_rule [] "c1" "recAAAAAAAAAAAA07" (by decide)).1
        (by decide)).2.2⟩,
   ⟨by decide, by decide,
    (((category_resolution_rule [] "c1" "Marine" (by decide)).2
        (by decide)).2 (by intro c hc; simp at hc)).1,
    (((category_resolution_rule [] "c1" "Marine" (by decide)).2
        (by decide)).2 (by intro c hc; simp at hc)).2.1,
    (((category_resolution_rule [] "c1" "Marine" (by decide)).2
        (by decide)).2 (by intro c hc; simp at hc)).2.2⟩⟩

/-- Claim C10: for a request that passes validation, with the storage
upload and the record write succeeding, the endpoint responds 200 with
one of the two success bodies, and the settled notification outcome —
failure included — never changes the response or the resulting
store. -/
theorem notify_failure_never_changes_response
    (env : Env) (store : Store) (req : UploadRequest) (ox : Oracles)
    (hse : req.submitterEmail ≠ "") (hf : req.file.isSome = true)
    (hs3 : ox.s3ok = true) (hw : ox.recordWriteOk = true) :
    ((uploadHandler env store req ox).1.status = 200 ∧
     ((uploadHandler env store req ox).1.body
        = "Existing record updated and notifications sent." ∨
      (uploadHandler env store req ox).1.body
        = "New record created and notifications sent.") ∧
     (∀ outcome, uploadHandler env store req
        { ox with notifyOutcome := outcome } = uploadHandler env store req ox)) := by
  obtain ⟨f, hf'⟩ := Option.isSome_iff_exists.mp hf
  refine ⟨?_, ?_, ?_⟩
  · simp [uploadHandler, hse, hf', hs3, hw]
  · cases hex : findSubmissionByEmail store.apps req.submitterEmail <;>
      simp [uploadHandler, hse, hf', hs3, hw, hex]
  · intro outcome
    simp [uploadHandler, hse, hf', hs3, hw]

theorem notify_failure_never_changes_response_witness :
    ("a@x.com" : String) ≠ "" ∧
    (uploadHandler ⟨none, false, [], "", ""⟩ ⟨[], []⟩
        ⟨"", "", "a@x.com", some ⟨"f.pdf"⟩⟩
        ⟨true, "u", "c1", "r1", true, .ok⟩).1.status = 200 ∧
    uploadHandler ⟨none, false, [], "", ""⟩ ⟨[], []⟩
        ⟨"", "", "a@x.com", some ⟨"f.pdf"⟩⟩
        ⟨true, "u", "c1", "r1", true, .error "boom"⟩
      = uploadHandler ⟨none, false, [], "", ""⟩ ⟨[], []⟩
        ⟨"", "", "a@x.com", some ⟨"f.pdf"⟩⟩
        ⟨true, "u", "c1", "r1", true, .ok⟩ :=
  ⟨by decide,
   (notify_failure_never_changes_response ⟨none, false, [], "", ""⟩ ⟨[], []⟩
      ⟨"", "", "a@x.com", some ⟨"f.pdf"⟩⟩ ⟨true, "u", "c1", "r1", true, .ok⟩
      (by decide) rfl rfl rfl).1,
   (notify_failure_never_changes_response ⟨none, false, [], "", ""⟩ ⟨[], []⟩
      ⟨"", "", "a@x.com", some ⟨"f.pdf"⟩⟩ ⟨true, "u", "c1", "r1", true, .ok⟩
      (by decide) rfl rfl rfl).2.2 (.error "boom")⟩

end Underwriters
